import Mathlib

/-!
Verification development for the terraform-provider-helm glue code.

The definitions below are a shallow embedding of the Go sources:
* `helm/structure_kubeconfig.go` — the `KubeConfig` RESTClientGetter
  (`toRawKubeConfigLoader`, its memoized wrapper `ToRawKubeConfigLoader`);
* the provider configuration file — `buildMeta`, `buildSettings`,
  `buildK8sClient`, `buildTunnel`, `buildHelmClient`, `getTLSConfig`,
  `getContent`.

External library calls (homedir expansion, kubeconfig loading,
client construction, port forwarding, TLS parsing, file reading) are
modelled as function-valued parameters gathered in environment records,
except `rest.DefaultServerURL`, which is given a concrete model of the
client-go scheme/host/port normalization logic.

Host-supplied settings read through `d.GetOk` / `k8sGetOk` are modelled
as `Option` fields: `some v` is the "value present" outcome, `none` the
"not ok" outcome.  Values read through `d.Get` (which always yields a
value, applying schema defaults) are plain fields.
-/

/-! ### clientcmd data model (k8s.io/client-go/tools/clientcmd) -/

/-- Model of `clientcmdapi.ExecEnvVar`. -/
structure ExecEnvVar where
  name : String := ""
  value : String := ""
deriving DecidableEq, Repr

/-- Model of `clientcmdapi.ExecConfig` (the fields the provider populates). -/
structure ExecConfig where
  apiVersion : String := ""
  command : String := ""
  args : List String := []
  env : List ExecEnvVar := []
deriving DecidableEq, Repr

/-- Model of `clientcmdapi.Context` (the fields the provider touches). -/
structure KubeContext where
  authInfo : String := ""
  cluster : String := ""
  namespc : String := ""
deriving DecidableEq, Repr

/-- Model of `clientcmd.ConfigOverrides.ClusterInfo` (`clientcmdapi.Cluster`),
restricted to the fields the provider touches.  Byte slices are modelled as
`String` (the provider only ever converts strings to bytes verbatim). -/
structure ClusterInfo where
  server : String := ""
  insecureSkipTLSVerify : Bool := false
  certificateAuthorityData : String := ""
deriving DecidableEq, Repr

/-- Model of `clientcmd.ConfigOverrides.AuthInfo` (`clientcmdapi.AuthInfo`),
restricted to the fields the provider touches. -/
structure AuthInfo where
  clientCertificateData : String := ""
  clientKeyData : String := ""
  username : String := ""
  password : String := ""
  token : String := ""
  exec : Option ExecConfig := none
deriving DecidableEq, Repr

/-- Model of `clientcmd.ConfigOverrides`.  Zero values model Go's
zero-initialized struct: an override field left at its zero value is
"unset" and lets the underlying kubeconfig's value take effect. -/
structure ConfigOverrides where
  currentContext : String := ""
  context : KubeContext := {}
  clusterInfo : ClusterInfo := {}
  authInfo : AuthInfo := {}
deriving DecidableEq, Repr

/-- Model of `clientcmd.ClientConfigLoadingRules` (only `ExplicitPath` is set). -/
structure ClientConfigLoadingRules where
  explicitPath : String := ""
deriving DecidableEq, Repr

/-- Model of the `clientcmd.ClientConfig` produced by
`clientcmd.NewNonInteractiveDeferredLoadingClientConfig`: a deferred
loader packaging the loading rules and the overrides. -/
structure ClientConfig where
  loader : ClientConfigLoadingRules
  overrides : ConfigOverrides
deriving DecidableEq, Repr

/-! ### rest.DefaultServerURL model (k8s.io/client-go/rest/url_utils.go) -/

/-- Minimal URL value for the `rest.DefaultServerURL` model. -/
structure URL where
  scheme : String
  hostPart : String
  path : String
deriving DecidableEq, Repr

/-- Reassembles the URL the way Go's `url.URL.String` renders the URLs
produced by `rest.DefaultServerURL` (scheme://host followed by the path). -/
def URL.render (u : URL) : String :=
  u.scheme ++ "://" ++ u.hostPart ++ u.path

/-- Splits a character list at the first occurrence of `sep`, returning
the part before it and the part after it (`none` when `sep` does not
occur). -/
def splitOnSubstr (sep : List Char) (s : List Char) : Option (List Char × List Char) :=
  match s with
  | [] => none
  | c :: rest =>
    if sep.isPrefixOf s then some ([], s.drop sep.length)
    else (splitOnSubstr sep rest).map (fun p => (c :: p.1, p.2))

/-- Model of Go's `url.Parse` restricted to what `rest.DefaultServerURL`
needs: an absolute URL `scheme://host[/path...]` parses into scheme,
host, and path (everything from the first slash on); anything without a
nonempty `scheme://` prefix or with an empty host is treated as having
no usable scheme/host (Go then falls back to prefixing a default
scheme). -/
def parseSchemeURL (s : String) : Option URL :=
  match splitOnSubstr [':', '/', '/'] s.data with
  | none => none
  | some (sch, rest) =>
    if sch = [] then none
    else
      match splitOnSubstr ['/'] rest with
      | none => if rest = [] then none else some ⟨⟨sch⟩, ⟨rest⟩, ""⟩
      | some (h, p) => if h = [] then none else some ⟨⟨sch⟩, ⟨h⟩, ⟨'/' :: p⟩⟩

/-- Model of `rest.DefaultServerURL` (with empty apiPath and empty
GroupVersion, as called by the provider): an empty host is an error; a
host that already carries a scheme is kept; otherwise the host is
prefixed with `https://` when `defaultTLS` is set and `http://` when it
is not, and in that case a nonempty path is rejected. -/
def defaultServerURL (host : String) (defaultTLS : Bool) : Except String URL :=
  if host = "" then .error "host must be a URL or a host:port pair"
  else
    match parseSchemeURL host with
    | some u => .ok u
    | none =>
      let scheme := if defaultTLS then "https" else "http"
      match parseSchemeURL (scheme ++ "://" ++ host) with
      | some u =>
        if u.path ≠ "" ∧ u.path ≠ "/" then
          .error "host must be a URL or a host:port pair"
        else .ok u
      | none => .error "host must be a URL or a host:port pair"

/-! ### Host-supplied settings for the kubeconfig resolver -/

/-- The settings the kubeconfig resolver reads from the host through
`k8sGet`/`k8sGetOk`.  `Option` fields are `k8sGetOk` outcomes; the exec
block is `some (some spec)` when present and well-formed, `some none`
when present but malformed (the `[]interface{}[0].(map[...])` type
assertion fails), `none` when absent. -/
structure ConfigData where
  loadConfigFile : Bool := false
  configPath : Option String := none
  configContext : Option String := none
  configContextAuthInfo : Option String := none
  configContextCluster : Option String := none
  insecure : Option Bool := none
  clusterCACertificate : Option String := none
  clientCertificate : Option String := none
  host : Option String := none
  username : Option String := none
  password : Option String := none
  clientKey : Option String := none
  token : Option String := none
  exec : Option (Option ExecConfig) := none
deriving DecidableEq, Repr

/-- External functions used by `toRawKubeConfigLoader`:
`homedir.Expand` and
`clientcmd.NewNonInteractiveDeferredLoadingClientConfig` (the latter
returning `none` models the `cfg == nil` check in the source). -/
structure KubeEnv where
  homedirExpand : String → Except String String
  mkDeferredConfig : ClientConfigLoadingRules → ConfigOverrides → Option ClientConfig

/-- The behavior of the real
`clientcmd.NewNonInteractiveDeferredLoadingClientConfig`: always
constructs a deferred config from the loading rules and overrides. -/
def newNonInteractiveDeferredLoadingClientConfig
    (loader : ClientConfigLoadingRules) (overrides : ConfigOverrides) :
    Option ClientConfig :=
  some ⟨loader, overrides⟩

/-! ### toRawKubeConfigLoader (structure_kubeconfig.go lines 74-177)

The Go function is one straight-line body; it is embedded here as the
config-file block (`fileOverrides`), the per-field static override
blocks, their sequential composition (`staticOverrides`), and the final
constructor call (`toRawKubeConfigLoader`). -/

/-- The `load_config_file` block (lines 78-105): sets the explicit
loader path (failing if homedir expansion fails) and the
context-selection overrides. -/
def fileOverrides (env : KubeEnv) (d : ConfigData) :
    Option (ClientConfigLoadingRules × ConfigOverrides) :=
  let overrides : ConfigOverrides := {}
  let loader : ClientConfigLoadingRules := {}
  if d.loadConfigFile then
    match d.configPath with
    | some configPath =>
      if configPath ≠ "" then
        match env.homedirExpand configPath with
        | .error _ => none
        | .ok path =>
          let loader := { loader with explicitPath := path }
          if d.configContext.isSome || d.configContextAuthInfo.isSome
              || d.configContextCluster.isSome then
            let overrides :=
              match d.configContext with
              | some ctx => { overrides with currentContext := ctx }
              | none => overrides
            let ctx : KubeContext := {}
            let ctx :=
              match d.configContextAuthInfo with
              | some a => { ctx with authInfo := a }
              | none => ctx
            let ctx :=
              match d.configContextCluster with
              | some c => { ctx with cluster := c }
              | none => ctx
            some (loader, { overrides with context := ctx })
          else
            some (loader, overrides)
      else some (loader, overrides)
    | none => some (loader, overrides)
  else some (loader, overrides)

/-- Lines 108-110: `insecure` override. -/
def overrideInsecure (d : ConfigData) (ov : ConfigOverrides) : ConfigOverrides :=
  match d.insecure with
  | some v => { ov with clusterInfo.insecureSkipTLSVerify := v }
  | none => ov

/-- Lines 111-113: `cluster_ca_certificate` override. -/
def overrideClusterCA (d : ConfigData) (ov : ConfigOverrides) : ConfigOverrides :=
  match d.clusterCACertificate with
  | some v => { ov with clusterInfo.certificateAuthorityData := v }
  | none => ov

/-- Lines 114-116: `client_certificate` override. -/
def overrideClientCert (d : ConfigData) (ov : ConfigOverrides) : ConfigOverrides :=
  match d.clientCertificate with
  | some v => { ov with authInfo.clientCertificateData := v }
  | none => ov

/-- Lines 117-131: `host` override.  The server is the
`rest.DefaultServerURL` result with secure defaults exactly when the
overrides already carry CA data, client certificate data, or the
insecure flag; a URL error aborts with a null loader. -/
def overrideHost (d : ConfigData) (ov : ConfigOverrides) : Option ConfigOverrides :=
  match d.host with
  | some v =>
    let hasCA := ov.clusterInfo.certificateAuthorityData ≠ ""
    let hasCert := ov.authInfo.clientCertificateData ≠ ""
    let defaultTLS := hasCA ∨ hasCert ∨ ov.clusterInfo.insecureSkipTLSVerify = true
    match defaultServerURL v (decide defaultTLS) with
    | .error _ => none
    | .ok host => some { ov with clusterInfo.server := host.render }
  | none => some ov

/-- Lines 132-134: `username` override. -/
def overrideUsername (d : ConfigData) (ov : ConfigOverrides) : ConfigOverrides :=
  match d.username with
  | some v => { ov with authInfo.username := v }
  | none => ov

/-- Lines 135-137: `password` override. -/
def overridePassword (d : ConfigData) (ov : ConfigOverrides) : ConfigOverrides :=
  match d.password with
  | some v => { ov with authInfo.password := v }
  | none => ov

/-- Lines 138-140: `client_key` override. -/
def overrideClientKey (d : ConfigData) (ov : ConfigOverrides) : ConfigOverrides :=
  match d.clientKey with
  | some v => { ov with authInfo.clientKeyData := v }
  | none => ov

/-- Lines 141-143: `token` override. -/
def overrideToken (d : ConfigData) (ov : ConfigOverrides) : ConfigOverrides :=
  match d.token with
  | some v => { ov with authInfo.token := v }
  | none => ov

/-- Lines 145-159: `exec` override.  A malformed spec logs an error and
aborts with a null loader. -/
def overrideExec (d : ConfigData) (ov : ConfigOverrides) : Option ConfigOverrides :=
  match d.exec with
  | some (some spec) => some { ov with authInfo.exec := some spec }
  | some none => none
  | none => some ov

/-- Lines 161-165: the namespace override is always set, to `"default"`
unless an explicit namespace was provided. -/
def overrideNamespace (ns : Option String) (ov : ConfigOverrides) : ConfigOverrides :=
  let ov := { ov with context.namespc := "default" }
  match ns with
  | some n => { ov with context.namespc := n }
  | none => ov

/-- Lines 107-165: the static override blocks, in source order. -/
def staticOverrides (d : ConfigData) (ns : Option String) (ov : ConfigOverrides) :
    Option ConfigOverrides := do
  let ov := overrideInsecure d ov
  let ov := overrideClusterCA d ov
  let ov := overrideClientCert d ov
  let ov ← overrideHost d ov
  let ov := overrideUsername d ov
  let ov := overridePassword d ov
  let ov := overrideClientKey d ov
  let ov := overrideToken d ov
  let ov ← overrideExec d ov
  pure (overrideNamespace ns ov)

/-- `(*KubeConfig).toRawKubeConfigLoader` (lines 74-177): compute loader
and overrides, construct the deferred config, return a null loader on
any failure. -/
def toRawKubeConfigLoader (env : KubeEnv) (d : ConfigData) (ns : Option String) :
    Option ClientConfig := do
  let (loader, overrides) ← fileOverrides env d
  let overrides ← staticOverrides d ns overrides
  let cfg ← env.mkDeferredConfig loader overrides
  pure cfg

/-! ### The memoized wrapper (structure_kubeconfig.go lines 62-72) -/

/-- The mutable state of a `KubeConfig` value: its host-supplied config
data, optional namespace, and the memoized `clientConfig` field. -/
structure KubeConfig where
  configData : ConfigData := {}
  namespc : Option String := none
  clientConfig : Option ClientConfig := none
deriving DecidableEq, Repr

/-- `(*KubeConfig).ToRawKubeConfigLoader` (lines 62-72): under the lock,
construct and store the loader when `clientConfig` is nil, then return
the stored field.  Returns the result together with the updated state. -/
def KubeConfigToRawKubeConfigLoader (env : KubeEnv) (k : KubeConfig) :
    Option ClientConfig × KubeConfig :=
  let k :=
    match k.clientConfig with
    | none => { k with clientConfig := toRawKubeConfigLoader env k.configData k.namespc }
    | some _ => k
  (k.clientConfig, k)

/-! ### Provider configuration (the provider source file)

Types and functions for `Provider`, `buildMeta`, `buildSettings`,
`buildK8sClient`, `buildTunnel`, `buildHelmClient`, `getTLSConfig`,
`getContent`. -/

/-- Model of `rest.Config`, restricted to the fields `buildK8sClient`
touches.  Byte slices are modelled as `String`. -/
structure RestConfig where
  host : String := ""
  username : String := ""
  password : String := ""
  insecure : Bool := false
  caData : String := ""
  certData : String := ""
  keyData : String := ""
  userAgent : String := ""
deriving DecidableEq, Repr

/-- Abstract handle for the clientset `kubernetes.NewForConfig` returns. -/
structure K8sClient where
  config : RestConfig
deriving DecidableEq, Repr

/-- A parsed `tls.Certificate` (key pair), kept abstract as its two PEM
inputs. -/
structure Certificate where
  certPEM : String := ""
  keyPEM : String := ""
deriving DecidableEq, Repr

/-- Model of `tls.Config`, restricted to the fields `getTLSConfig`
touches.  The root CA pool is the list of PEM blocks appended to it
(`none` models a nil `RootCAs`). -/
structure TLSConfig where
  insecureSkipVerify : Bool := false
  certificates : List Certificate := []
  rootCAs : Option (List String) := none
deriving DecidableEq, Repr

/-- Model of the Helm client `helm.NewClient` builds: the host option
and the optional TLS option. -/
structure HelmClient where
  host : String := ""
  tls : Option TLSConfig := none
deriving DecidableEq, Repr

/-- Model of `helm_env.EnvSettings`, restricted to the fields
`buildSettings` populates. -/
structure EnvSettings where
  home : String := ""
  tillerHost : String := ""
  tillerNamespace : String := ""
  debug : Bool := false
deriving DecidableEq, Repr

/-- The `Meta` struct of the provider. -/
structure Meta where
  settings : EnvSettings := {}
  k8sClient : Option K8sClient := none
  k8sConfig : Option RestConfig := none
  helmClient : Option HelmClient := none
  tunnel : Option Nat := none
  defaultNamespace : String := ""
deriving DecidableEq, Repr

/-- The `kubernetes` nested block of the provider schema.  `Option`
fields are the `d.GetOk("kubernetes.0.<key>")` outcomes; `configContext`
is read through plain `d.Get`, so it is a defaulted string. -/
structure K8sBlock where
  host : Option String := none
  username : Option String := none
  password : Option String := none
  insecure : Option Bool := none
  clusterCACertificate : Option String := none
  clientCertificate : Option String := none
  clientKey : Option String := none
  configContext : String := ""
deriving DecidableEq, Repr

/-- Provider-level settings, as read from the host through `d.Get`
(schema defaults and environment fallbacks already applied), plus the
optional `kubernetes` block (`none` when `d.GetOk("kubernetes")` is not
ok). -/
structure ProviderData where
  host : String := ""
  home : String := ""
  namespc : String := ""
  debug : Bool := false
  insecure : Bool := false
  clientKey : String := "$HELM_HOME/key.pem"
  clientCertificate : String := "$HELM_HOME/cert.pem"
  caCertificate : String := "$HELM_HOME/ca.pem"
  kubernetes : Option K8sBlock := none
deriving DecidableEq, Repr

/-- `d.Get("kubernetes.0.config_context")`: the nested value when the
block is present, the zero value otherwise. -/
def k8sConfigContext (d : ProviderData) : String :=
  match d.kubernetes with
  | some b => b.configContext
  | none => ""

/-- `d.GetOk("kubernetes.0.<key>")` for an `Option`-valued nested field:
not ok when the block is absent. -/
def kubeGetOk {α : Type} (d : ProviderData) (f : K8sBlock → Option α) : Option α :=
  match d.kubernetes with
  | some b => f b
  | none => none

/-- External functions used by `getTLSConfig`: `pathorcontents.Read`,
`tls.X509KeyPair` (cert PEM first, then key PEM) and
`(*x509.CertPool).AppendCertsFromPEM` (whether the PEM parses). -/
structure TLSEnv where
  read : String → Except String String
  x509KeyPair : String → String → Except String Certificate
  appendCertsFromPEM : String → Bool

/-- External functions used by the provider configuration step:
`kube.GetConfig(ctx).ClientConfig()`, `kubernetes.NewForConfig`,
`portforwarder.New` (returning the tunnel's local port),
`terraform.VersionString()`, and the TLS externals. -/
structure ProviderExt where
  kubeGetConfig : String → Except String RestConfig
  newForConfig : RestConfig → Except String K8sClient
  portforwardNew : String → Option K8sClient → Option RestConfig → Except String Nat
  terraformVersion : String
  tlsEnv : TLSEnv

/-- `buildSettings`: populate the Helm environment settings from the
provider-level fields. -/
def buildSettings (d : ProviderData) : EnvSettings :=
  { home := d.home
    tillerHost := d.host
    tillerNamespace := d.namespc
    debug := d.debug }

/-- `(*Meta).buildK8sClient` (the provider source, lines 246-294):
resolve the kubeconfig-derived configuration (on failure: return the
error when a `kubernetes` block is present, else fall back to an empty
`rest.Config`), set the user agent, overlay the explicitly set static
fields, store the config, and build the clientset. -/
def buildK8sClient (ext : ProviderExt) (d : ProviderData) (m : Meta) : Except String Meta :=
  let hasStatic := d.kubernetes.isSome
  let ctx := k8sConfigContext d
  let resolved : Except String RestConfig :=
    match ext.kubeGetConfig ctx with
    | .error e => if hasStatic then .error e else .ok {}
    | .ok cfg => .ok cfg
  match resolved with
  | .error e => .error e
  | .ok cfg =>
    let cfg := { cfg with userAgent := "HashiCorp/1.0 Terraform/" ++ ext.terraformVersion }
    let cfg :=
      match kubeGetOk d K8sBlock.host with
      | some v => { cfg with host := v }
      | none => cfg
    let cfg :=
      match kubeGetOk d K8sBlock.username with
      | some v => { cfg with username := v }
      | none => cfg
    let cfg :=
      match kubeGetOk d K8sBlock.password with
      | some v => { cfg with password := v }
      | none => cfg
    let cfg :=
      match kubeGetOk d K8sBlock.insecure with
      | some v => { cfg with insecure := v }
      | none => cfg
    let cfg :=
      match kubeGetOk d K8sBlock.clusterCACertificate with
      | some v => { cfg with caData := v }
      | none => cfg
    let cfg :=
      match kubeGetOk d K8sBlock.clientCertificate with
      | some v => { cfg with certData := v }
      | none => cfg
    let cfg :=
      match kubeGetOk d K8sBlock.clientKey with
      | some v => { cfg with keyData := v }
      | none => cfg
    match ext.newForConfig cfg with
    | .error e => .error ("failed to configure kubernetes config: " ++ e)
    | .ok client => .ok { m with k8sConfig := some cfg, k8sClient := some client }

/-- Go's `%q` formatting of an error message (modelled without escape
rewriting: the message wrapped in double quotes). -/
def quoteStr (s : String) : String := "\"" ++ s ++ "\""

/-- `(*Meta).buildTunnel` (lines 296-309): a no-op when a Tiller host is
already configured; otherwise open a port-forward and rewrite the
effective host to `localhost:<local-port>`, failing if the tunnel cannot
be established. -/
def buildTunnel (ext : ProviderExt) (m : Meta) : Except String Meta :=
  if m.settings.tillerHost ≠ "" then .ok m
  else
    match ext.portforwardNew m.settings.tillerNamespace m.k8sClient m.k8sConfig with
    | .error e => .error ("error creating tunnel: " ++ quoteStr e)
    | .ok localPort =>
      .ok { m with settings.tillerHost := "localhost:" ++ toString localPort }

/-- `getContent` (lines 370-383): read the named setting as a path or
literal content; content equal to the default sentinel counts as absent
(empty). -/
def getContent (env : TLSEnv) (filename dflt : String) : Except String String :=
  match env.read filename with
  | .error e => .error e
  | .ok content => if content = dflt then .ok "" else .ok content

/-- `getTLSConfig` (lines 329-368): no TLS config when both key and
certificate material are empty; otherwise parse the key pair, and attach
a root CA pool only when the insecure flag is unset and the CA material
is nonempty, failing if the pair is malformed or the CA bundle does not
parse. -/
def getTLSConfig (env : TLSEnv) (d : ProviderData) : Except String (Option TLSConfig) :=
  match getContent env d.clientKey "$HELM_HOME/key.pem" with
  | .error e => .error e
  | .ok keyPEMBlock =>
    match getContent env d.clientCertificate "$HELM_HOME/cert.pem" with
    | .error e => .error e
    | .ok certPEMBlock =>
      if keyPEMBlock = "" ∧ certPEMBlock = "" then .ok none
      else
        let cfg : TLSConfig := { insecureSkipVerify := d.insecure }
        match env.x509KeyPair certPEMBlock keyPEMBlock with
        | .error e => .error ("could not read x509 key pair: " ++ e)
        | .ok cert =>
          let cfg := { cfg with certificates := [cert] }
          match getContent env d.caCertificate "$HELM_HOME/ca.pem" with
          | .error e => .error e
          | .ok caPEMBlock =>
            if cfg.insecureSkipVerify = false ∧ caPEMBlock ≠ "" then
              if env.appendCertsFromPEM caPEMBlock then
                .ok (some { cfg with rootCAs := some [caPEMBlock] })
              else .error "failed to parse ca_certificate"
            else .ok (some cfg)

/-- `(*Meta).buildHelmClient` (lines 311-327): build the Helm client
with the host option and, when a TLS config was produced, the TLS
option; fail when `getTLSConfig` fails. -/
def buildHelmClient (env : TLSEnv) (d : ProviderData) (m : Meta) : Except String Meta :=
  match getTLSConfig env d with
  | .error e => .error e
  | .ok tlscfg => .ok { m with helmClient := some { host := m.settings.tillerHost, tls := tlscfg } }

/-- `buildMeta` (lines 219-235): settings, Kubernetes client, tunnel,
Helm client, in that order, aborting on the first error. -/
def buildMeta (ext : ProviderExt) (d : ProviderData) : Except String Meta :=
  let m : Meta := {}
  let m := { m with settings := buildSettings d }
  match buildK8sClient ext d m with
  | .error e => .error e
  | .ok m =>
    match buildTunnel ext m with
    | .error e => .error e
    | .ok m =>
      match buildHelmClient ext.tlsEnv d m with
      | .error e => .error e
      | .ok m => .ok m

/-! ### Interleaving model of concurrent `ToRawKubeConfigLoader` calls

`ToRawKubeConfigLoader` acquires `k.lock` on entry and releases it (via
`defer`) on return, so its whole body is a critical section; no other
code touches `k.clientConfig`.  A caller thread therefore takes two
atomic steps: acquire the lock (blocking while it is held), then run the
body and release.  A schedule is an arbitrary list of thread indices;
scheduling a blocked or finished thread changes nothing. -/

/-- The per-thread state of one caller of `ToRawKubeConfigLoader`. -/
inductive CallerState where
  | start : CallerState
  | locked : CallerState
  | finished : Option ClientConfig → CallerState
deriving DecidableEq, Repr

/-- The shared state: the mutex, the memoized `clientConfig` field, a
count of how many times a loader was constructed (i.e. how many times
the body ran with an empty cache), and all caller states. -/
structure ConcState where
  lockHeld : Bool
  clientConfig : Option ClientConfig
  constructions : Nat
  callers : List CallerState
deriving DecidableEq, Repr

/-- `n` callers about to invoke `ToRawKubeConfigLoader` on a fresh
`KubeConfig` (lock free, nothing memoized). -/
def initConcState (n : Nat) : ConcState :=
  { lockHeld := false
    clientConfig := none
    constructions := 0
    callers := List.replicate n .start }

/-- One scheduler step: let caller `i` advance by one atomic step if it
can.  A `start` caller acquires the free lock; a `locked` caller runs
the body (construct into the empty cache, or read the cache), records
its result, and releases the lock. -/
def concStep (env : KubeEnv) (d : ConfigData) (ns : Option String)
    (s : ConcState) (i : Nat) : ConcState :=
  match s.callers.get? i with
  | some .start =>
    if s.lockHeld then s
    else { s with lockHeld := true, callers := s.callers.set i .locked }
  | some .locked =>
    match s.clientConfig with
    | none =>
      let r := toRawKubeConfigLoader env d ns
      { s with lockHeld := false
               clientConfig := r
               constructions := s.constructions + 1
               callers := s.callers.set i (.finished r) }
    | some c =>
      { s with lockHeld := false, callers := s.callers.set i (.finished (some c)) }
  | _ => s

/-- Run a whole schedule of steps. -/
def concRun (env : KubeEnv) (d : ConfigData) (ns : Option String)
    (sched : List Nat) (s : ConcState) : ConcState :=
  sched.foldl (concStep env d ns) s

/-! ### Concrete inputs used by witnesses and counterexamples -/

/-- A `KubeEnv` with the real library behavior: homedir expansion that
succeeds (identity is enough for the inputs used) and the real deferred
config constructor. -/
def canonicalKubeEnv : KubeEnv :=
  { homedirExpand := fun s => .ok s
    mkDeferredConfig := newNonInteractiveDeferredLoadingClientConfig }

/-- A `TLSEnv` whose reads succeed (returning the file name tagged as
content), whose key pair parsing succeeds, and whose CA parsing always
fails: every CA bundle is unparseable. -/
def tlsEnvBadCA : TLSEnv :=
  { read := fun f => .ok ("content:" ++ f)
    x509KeyPair := fun c k => .ok ⟨c, k⟩
    appendCertsFromPEM := fun _ => false }

/-- A `TLSEnv` whose reads and parses all succeed. -/
def tlsEnvOk : TLSEnv :=
  { read := fun f => .ok ("content:" ++ f)
    x509KeyPair := fun c k => .ok ⟨c, k⟩
    appendCertsFromPEM := fun _ => true }

/-- A `TLSEnv` for which all TLS material reads back as absent (the
default sentinel paths read back verbatim). -/
def tlsEnvAbsent : TLSEnv :=
  { read := fun f => .ok f
    x509KeyPair := fun c k => .ok ⟨c, k⟩
    appendCertsFromPEM := fun _ => true }

/-- Provider externals for which kubeconfig resolution fails while
everything else succeeds. -/
def extNoKubeconfig : ProviderExt :=
  { kubeGetConfig := fun _ => .error "no kubeconfig"
    newForConfig := fun c => .ok ⟨c⟩
    portforwardNew := fun _ _ _ => .ok 44134
    terraformVersion := "0.12.0"
    tlsEnv := tlsEnvAbsent }

/-- Provider externals for which everything succeeds except opening the
port-forward tunnel. -/
def extTunnelFail : ProviderExt :=
  { kubeGetConfig := fun _ => .ok { host := "https://10.0.0.1" }
    newForConfig := fun c => .ok ⟨c⟩
    portforwardNew := fun _ _ _ => .error "pod not found"
    terraformVersion := "0.12.0"
    tlsEnv := tlsEnvAbsent }

/-- A `kubernetes` block carrying a usable static host override. -/
def dStaticK8s : ProviderData :=
  { kubernetes := some { host := some "https://10.0.0.1" } }

/-- Invariant of the interleaving model: every finished caller observed
the (deterministic) resolution result; the cache is either empty or
holds that result; and, when resolution succeeds, either nothing has
happened yet (empty cache, no constructions, no finished caller) or the
cache is filled and exactly one construction has happened. -/
def concInv (env : KubeEnv) (d : ConfigData) (ns : Option String) (s : ConcState) : Prop :=
  (∀ r, CallerState.finished r ∈ s.callers → r = toRawKubeConfigLoader env d ns)
    ∧ (s.clientConfig = none ∨ s.clientConfig = toRawKubeConfigLoader env d ns)
    ∧ ((toRawKubeConfigLoader env d ns).isSome = true →
        (s.clientConfig = none ∧ s.constructions = 0
          ∧ ∀ r, CallerState.finished r ∉ s.callers)
        ∨ (s.clientConfig = toRawKubeConfigLoader env d ns ∧ s.constructions = 1))

/-- A `KubeEnv` whose deferred-config constructor always fails. -/
def kubeEnvNoCfg : KubeEnv :=
  { homedirExpand := fun s => .ok s
    mkDeferredConfig := fun _ _ => none }

/-- Config data with no config file but a context selection supplied. -/
def dFrameCx : ConfigData :=
  { loadConfigFile := false, configContext := some "chosen-context" }

/-- Config data with every host-suppliable setting present. -/
def dFrameAll : ConfigData :=
  { loadConfigFile := true
    configPath := some "~/.kube/config"
    configContext := some "ctx"
    configContextAuthInfo := some "ai"
    configContextCluster := some "cl"
    insecure := some true
    clusterCACertificate := some "CA"
    clientCertificate := some "CERT"
    host := some "1.2.3.4:443"
    username := some "user"
    password := some "pass"
    clientKey := some "KEY"
    token := some "tok"
    exec := some (some { apiVersion := "v1", command := "aws-iam-authenticator" }) }

/-- Config data with an explicit host and a client certificate. -/
def dHostCert : ConfigData :=
  { clientCertificate := some "CERT", host := some "1.2.3.4:443" }

/-- A `TLSEnv` whose key pair parsing fails. -/
def tlsEnvBadPair : TLSEnv :=
  { read := fun f => .ok ("content:" ++ f)
    x509KeyPair := fun _ _ => .error "bad pair"
    appendCertsFromPEM := fun _ => true }

/-- A `TLSEnv` for C7: the key/cert files read to PEM content, anything
else (in particular the CA default sentinel path) reads back verbatim. -/
def tlsEnvCertOnly : TLSEnv :=
  { read := fun f => .ok (if f = "kf" then "KEYPEM" else if f = "cf" then "CERTPEM" else f)
    x509KeyPair := fun c k => .ok ⟨c, k⟩
    appendCertsFromPEM := fun _ => true }

/-- Provider data with only a client key and certificate configured. -/
def dCertOnly : ProviderData := { clientKey := "kf", clientCertificate := "cf" }

/-- Provider data with the insecure flag set and full (bad-CA) TLS material. -/
def dTLSBadCA : ProviderData :=
  { insecure := true, clientKey := "kf", clientCertificate := "cf", caCertificate := "caf" }

/-- Provider data with the insecure flag unset and full (bad-CA) TLS material. -/
def dTLSBadCASecure : ProviderData :=
  { insecure := false, clientKey := "kf", clientCertificate := "cf", caCertificate := "caf" }

/-- Provider data like `dTLSBadCASecure` but with an explicit Tiller host,
so provider configuration reaches the Helm client builder. -/
def dTLSBadCAProv : ProviderData :=
  { host := "tiller:44134", insecure := false
    clientKey := "kf", clientCertificate := "cf", caCertificate := "caf" }

/-- Provider externals that succeed everywhere, with the bad-CA TLS
environment. -/
def extBadCA : ProviderExt :=
  { kubeGetConfig := fun _ => .ok {}
    newForConfig := fun c => .ok ⟨c⟩
    portforwardNew := fun _ _ _ => .ok 44134
    terraformVersion := "0.12.0"
    tlsEnv := tlsEnvBadCA }

/-! ### Helper lemmas about the override stages -/

theorem overrideInsecure_eq (d : ConfigData) (ov : ConfigOverrides) :
    overrideInsecure d ov =
      { ov with clusterInfo.insecureSkipTLSVerify :=
          d.insecure.getD ov.clusterInfo.insecureSkipTLSVerify } := by
  unfold overrideInsecure
  cases d.insecure <;> rfl

theorem overrideClusterCA_eq (d : ConfigData) (ov : ConfigOverrides) :
    overrideClusterCA d ov =
      { ov with clusterInfo.certificateAuthorityData :=
          d.clusterCACertificate.getD ov.clusterInfo.certificateAuthorityData } := by
  unfold overrideClusterCA
  cases d.clusterCACertificate <;> rfl

theorem overrideClientCert_eq (d : ConfigData) (ov : ConfigOverrides) :
    overrideClientCert d ov =
      { ov with authInfo.clientCertificateData :=
          d.clientCertificate.getD ov.authInfo.clientCertificateData } := by
  unfold overrideClientCert
  cases d.clientCertificate <;> rfl

theorem overrideUsername_eq (d : ConfigData) (ov : ConfigOverrides) :
    overrideUsername d ov =
      { ov with authInfo.username := d.username.getD ov.authInfo.username } := by
  unfold overrideUsername
  cases d.username <;> rfl

theorem overridePassword_eq (d : ConfigData) (ov : ConfigOverrides) :
    overridePassword d ov =
      { ov with authInfo.password := d.password.getD ov.authInfo.password } := by
  unfold overridePassword
  cases d.password <;> rfl

theorem overrideClientKey_eq (d : ConfigData) (ov : ConfigOverrides) :
    overrideClientKey d ov =
      { ov with authInfo.clientKeyData := d.clientKey.getD ov.authInfo.clientKeyData } := by
  unfold overrideClientKey
  cases d.clientKey <;> rfl

theorem overrideToken_eq (d : ConfigData) (ov : ConfigOverrides) :
    overrideToken d ov =
      { ov with authInfo.token := d.token.getD ov.authInfo.token } := by
  unfold overrideToken
  cases d.token <;> rfl

theorem overrideNamespace_eq (ns : Option String) (ov : ConfigOverrides) :
    overrideNamespace ns ov = { ov with context.namespc := ns.getD "default" } := by
  unfold overrideNamespace
  cases ns <;> rfl

theorem overrideHost_preserves (d : ConfigData) (ov ov' : ConfigOverrides)
    (h : overrideHost d ov = some ov') :
    ov'.currentContext = ov.currentContext ∧ ov'.context = ov.context
      ∧ ov'.authInfo = ov.authInfo
      ∧ ov'.clusterInfo.insecureSkipTLSVerify = ov.clusterInfo.insecureSkipTLSVerify
      ∧ ov'.clusterInfo.certificateAuthorityData = ov.clusterInfo.certificateAuthorityData := by
  unfold overrideHost at h
  split at h
  · dsimp only at h
    split at h
    · cases h
    · cases h
      exact ⟨rfl, rfl, rfl, rfl, rfl⟩
  · cases h
    exact ⟨rfl, rfl, rfl, rfl, rfl⟩

theorem overrideHost_some (d : ConfigData) (ov ov' : ConfigOverrides) (v : String)
    (hv : d.host = some v) (h : overrideHost d ov = some ov') :
    ∃ u, defaultServerURL v
        (decide (ov.clusterInfo.certificateAuthorityData ≠ ""
          ∨ ov.authInfo.clientCertificateData ≠ ""
          ∨ ov.clusterInfo.insecureSkipTLSVerify = true)) = .ok u
      ∧ ov'.clusterInfo.server = u.render := by
  unfold overrideHost at h
  split at h
  · rename_i v' heq
    have hv' : v' = v := by
      rw [hv] at heq
      exact (Option.some.inj heq).symm
    subst hv'
    dsimp only at h
    split at h
    · cases h
    · rename_i u heq2
      cases h
      exact ⟨u, heq2, rfl⟩
  · rename_i heq
    rw [hv] at heq
    cases heq

theorem overrideExec_preserves (d : ConfigData) (ov ov' : ConfigOverrides)
    (h : overrideExec d ov = some ov') :
    ov'.currentContext = ov.currentContext ∧ ov'.context = ov.context
      ∧ ov'.clusterInfo = ov.clusterInfo
      ∧ ov'.authInfo.clientCertificateData = ov.authInfo.clientCertificateData
      ∧ ov'.authInfo.clientKeyData = ov.authInfo.clientKeyData
      ∧ ov'.authInfo.username = ov.authInfo.username
      ∧ ov'.authInfo.password = ov.authInfo.password
      ∧ ov'.authInfo.token = ov.authInfo.token
      ∧ ov'.authInfo.exec = d.exec.getD ov.authInfo.exec := by
  unfold overrideExec at h
  rcases he : d.exec with _ | (_ | spec) <;> rw [he] at h
  · cases h
    exact ⟨rfl, rfl, rfl, rfl, rfl, rfl, rfl, rfl, rfl⟩
  · cases h
  · cases h
    exact ⟨rfl, rfl, rfl, rfl, rfl, rfl, rfl, rfl, rfl⟩

theorem overrideExec_malformed (d : ConfigData) (ov : ConfigOverrides)
    (h : d.exec = some none) : overrideExec d ov = none := by
  unfold overrideExec
  rw [h]

theorem fileOverrides_static (env : KubeEnv) (d : ConfigData)
    (l : ClientConfigLoadingRules) (ov : ConfigOverrides)
    (h : fileOverrides env d = some (l, ov)) :
    ov.clusterInfo = {} ∧ ov.authInfo = {} ∧ ov.context.namespc = "" := by
  unfold fileOverrides at h
  repeat' split at h
  all_goals (try cases h)
  all_goals exact ⟨rfl, rfl, rfl⟩

theorem fileOverrides_default (env : KubeEnv) (d : ConfigData)
    (hc : d.loadConfigFile = false ∨ d.configPath = none ∨ d.configPath = some "") :
    fileOverrides env d = some ({}, {}) := by
  unfold fileOverrides
  rcases hc with hc | hc | hc
  · rw [hc]
    simp
  · split
    · rw [hc]
    · rfl
  · split
    · rw [hc]
      simp
    · rfl

theorem fileOverrides_branch (env : KubeEnv) (d : ConfigData)
    (l : ClientConfigLoadingRules) (ov : ConfigOverrides) (p : String)
    (hl : d.loadConfigFile = true) (hp : d.configPath = some p) (hpne : p ≠ "")
    (h : fileOverrides env d = some (l, ov)) :
    ov.currentContext = d.configContext.getD ""
      ∧ ov.context.authInfo = d.configContextAuthInfo.getD ""
      ∧ ov.context.cluster = d.configContextCluster.getD "" := by
  unfold fileOverrides at h
  simp only [hl, hp, if_true] at h
  rw [if_pos hpne] at h
  rcases hcc : d.configContext with _ | c <;>
    rcases hcai : d.configContextAuthInfo with _ | a <;>
      rcases hccl : d.configContextCluster with _ | cl <;>
  · rw [hcc, hcai, hccl] at h
    dsimp only [Option.isSome] at h
    split at h
    · cases h
    · simp only [Bool.or_self, Bool.false_or, Bool.or_false, Bool.true_or, Bool.or_true,
        if_true, if_false, Bool.false_eq_true, ite_false, ite_true] at h
      cases h
      simp [hcc, hcai, hccl]

theorem staticOverrides_parts (d : ConfigData) (ns : Option String) (ov0 ov' : ConfigOverrides)
    (h : staticOverrides d ns ov0 = some ov') :
    ∃ ov1 ov2,
      overrideHost d (overrideClientCert d (overrideClusterCA d (overrideInsecure d ov0))) = some ov1
      ∧ overrideExec d
          (overrideToken d (overrideClientKey d (overridePassword d (overrideUsername d ov1)))) = some ov2
      ∧ ov' = overrideNamespace ns ov2 := by
  unfold staticOverrides at h
  dsimp only at h
  simp only [Option.bind_eq_bind, Option.bind_eq_some, Option.pure_def, Option.some.injEq] at h
  obtain ⟨ov1, hh, ov2, he, hn⟩ := h
  exact ⟨ov1, ov2, hh, he, hn.symm⟩

theorem toRawKubeConfigLoader_parts (env : KubeEnv) (d : ConfigData) (ns : Option String)
    (cfg : ClientConfig) (h : toRawKubeConfigLoader env d ns = some cfg) :
    ∃ l ov0 ov', fileOverrides env d = some (l, ov0)
      ∧ staticOverrides d ns ov0 = some ov'
      ∧ env.mkDeferredConfig l ov' = some cfg := by
  unfold toRawKubeConfigLoader at h
  simp only [Option.bind_eq_bind, Option.bind_eq_some, Option.pure_def, Option.some.injEq] at h
  obtain ⟨⟨l, ov0⟩, hf, ov', hs, cfg', hm, hc⟩ := h
  exact ⟨l, ov0, ov', hf, hs, hc ▸ hm⟩

theorem pre_stages_eq (d : ConfigData) (ov : ConfigOverrides) :
    overrideClientCert d (overrideClusterCA d (overrideInsecure d ov)) =
      { ov with
          clusterInfo.insecureSkipTLSVerify :=
            d.insecure.getD ov.clusterInfo.insecureSkipTLSVerify
          clusterInfo.certificateAuthorityData :=
            d.clusterCACertificate.getD ov.clusterInfo.certificateAuthorityData
          authInfo.clientCertificateData :=
            d.clientCertificate.getD ov.authInfo.clientCertificateData } := by
  rw [overrideClientCert_eq, overrideClusterCA_eq, overrideInsecure_eq]

theorem post_stages_authInfo (d : ConfigData) (ov : ConfigOverrides) :
    (overrideToken d (overrideClientKey d (overridePassword d (overrideUsername d ov)))).authInfo
      = { clientCertificateData := ov.authInfo.clientCertificateData
          clientKeyData := d.clientKey.getD ov.authInfo.clientKeyData
          username := d.username.getD ov.authInfo.username
          password := d.password.getD ov.authInfo.password
          token := d.token.getD ov.authInfo.token
          exec := ov.authInfo.exec } := by
  rw [overrideToken_eq, overrideClientKey_eq, overridePassword_eq, overrideUsername_eq]

theorem post_stages_clusterInfo (d : ConfigData) (ov : ConfigOverrides) :
    (overrideToken d (overrideClientKey d (overridePassword d (overrideUsername d ov)))).clusterInfo
      = ov.clusterInfo := by
  rw [overrideToken_eq, overrideClientKey_eq, overridePassword_eq, overrideUsername_eq]

theorem post_stages_context (d : ConfigData) (ov : ConfigOverrides) :
    (overrideToken d (overrideClientKey d (overridePassword d (overrideUsername d ov)))).context
      = ov.context := by
  rw [overrideToken_eq, overrideClientKey_eq, overridePassword_eq, overrideUsername_eq]

theorem post_stages_currentContext (d : ConfigData) (ov : ConfigOverrides) :
    (overrideToken d (overrideClientKey d (overridePassword d (overrideUsername d ov)))).currentContext
      = ov.currentContext := by
  rw [overrideToken_eq, overrideClientKey_eq, overridePassword_eq, overrideUsername_eq]

/-! ### Claim theorems -/

/-- C3 (counterexample): the claim "when the host-supplied setting is
absent the corresponding override field is left unset" fails for the
namespace: with no namespace supplied (and no config file), the resolver
still sets the namespace override to `"default"`, not to the unset zero
value, so the underlying kubeconfig's namespace can never take effect;
and with `load_config_file` false a supplied context selection is not
copied into the overrides at all. -/
theorem override_frame_counterexample :
    (toRawKubeConfigLoader canonicalKubeEnv dFrameCx none).map
        (fun cfg => cfg.overrides.context.namespc) = some "default"
      ∧ (toRawKubeConfigLoader canonicalKubeEnv dFrameCx none).map
        (fun cfg => cfg.overrides.currentContext) = some ""
      ∧ dFrameCx.configContext = some "chosen-context"
      ∧ ("default" : String) ≠ "" := by
  refine ⟨rfl, rfl, rfl, by decide⟩

/-- C3 (amended): for the static override fields (insecure flag, CA
data, client certificate/key data, username, password, token, exec
spec), a present host-supplied setting is copied verbatim into the
overrides object and an absent one leaves the override at its unset
zero value; the context-selection fields behave this way only when
config-file loading is enabled with a nonempty path (otherwise they are
left unset even when supplied); and the namespace override is always
set — to the supplied namespace, or to `"default"` when absent. -/
theorem override_frame_amended (env : KubeEnv) (d : ConfigData) (ns : Option String)
    (cfg : ClientConfig)
    (hmk : env.mkDeferredConfig = newNonInteractiveDeferredLoadingClientConfig)
    (h : toRawKubeConfigLoader env d ns = some cfg) :
    cfg.overrides.clusterInfo.insecureSkipTLSVerify = d.insecure.getD false
      ∧ cfg.overrides.clusterInfo.certificateAuthorityData = d.clusterCACertificate.getD ""
      ∧ cfg.overrides.authInfo.clientCertificateData = d.clientCertificate.getD ""
      ∧ cfg.overrides.authInfo.clientKeyData = d.clientKey.getD ""
      ∧ cfg.overrides.authInfo.username = d.username.getD ""
      ∧ cfg.overrides.authInfo.password = d.password.getD ""
      ∧ cfg.overrides.authInfo.token = d.token.getD ""
      ∧ cfg.overrides.authInfo.exec = d.exec.getD none
      ∧ cfg.overrides.context.namespc = ns.getD "default"
      ∧ ((d.loadConfigFile = false ∨ d.configPath = none ∨ d.configPath = some "") →
          cfg.overrides.currentContext = "" ∧ cfg.overrides.context.authInfo = ""
            ∧ cfg.overrides.context.cluster = "")
      ∧ (∀ p, d.loadConfigFile = true → d.configPath = some p → p ≠ "" →
          cfg.overrides.currentContext = d.configContext.getD ""
            ∧ cfg.overrides.context.authInfo = d.configContextAuthInfo.getD ""
            ∧ cfg.overrides.context.cluster = d.configContextCluster.getD "") := by
  obtain ⟨l, ov0, ov', hf, hs, hm⟩ := toRawKubeConfigLoader_parts env d ns cfg h
  rw [hmk] at hm
  have hcfg : cfg = ⟨l, ov'⟩ := (Option.some.inj hm).symm
  subst hcfg
  obtain ⟨ov1, ov2, hh, he, hn⟩ := staticOverrides_parts d ns ov0 ov' hs
  subst hn
  obtain ⟨hcl0, hai0, _⟩ := fileOverrides_static env d l ov0 hf
  rw [pre_stages_eq] at hh
  obtain ⟨hp1, hp2, hp3, hp4, hp5⟩ := overrideHost_preserves d _ ov1 hh
  dsimp only at hp1 hp2 hp3 hp4 hp5
  rw [hcl0] at hp4 hp5
  rw [hai0] at hp3
  obtain ⟨he1, he2, he3, he4, he5, he6, he7, he8, he9⟩ := overrideExec_preserves d _ ov2 he
  refine ⟨?_, ?_, ?_, ?_, ?_, ?_, ?_, ?_, ?_, ?_, ?_⟩
  · simp only [overrideNamespace_eq, he3, post_stages_clusterInfo, hp4]
  · simp only [overrideNamespace_eq, he3, post_stages_clusterInfo, hp5]
  · simp only [overrideNamespace_eq, he4, post_stages_authInfo, hp3]
  · simp only [overrideNamespace_eq, he5, post_stages_authInfo, hp3]
  · simp only [overrideNamespace_eq, he6, post_stages_authInfo, hp3]
  · simp only [overrideNamespace_eq, he7, post_stages_authInfo, hp3]
  · simp only [overrideNamespace_eq, he8, post_stages_authInfo, hp3]
  · simp only [overrideNamespace_eq, he9, post_stages_authInfo, hp3]
  · simp only [overrideNamespace_eq]
  · intro hc
    have hfd := fileOverrides_default env d hc
    have hpair := Option.some.inj (hfd.symm.trans hf)
    have hov0 : ov0 = ({} : ConfigOverrides) := (congrArg Prod.snd hpair).symm
    subst hov0
    refine ⟨?_, ?_, ?_⟩
    · simp only [overrideNamespace_eq, he1, post_stages_currentContext, hp1]
    · simp only [overrideNamespace_eq, he2, post_stages_context, hp2]
    · simp only [overrideNamespace_eq, he2, post_stages_context, hp2]
  · intro p hl hp hpne
    obtain ⟨hb1, hb2, hb3⟩ := fileOverrides_branch env d l ov0 p hl hp hpne hf
    refine ⟨?_, ?_, ?_⟩
    · simp only [overrideNamespace_eq, he1, post_stages_currentContext, hp1, hb1]
    · simp only [overrideNamespace_eq, he2, post_stages_context, hp2, hb2]
    · simp only [overrideNamespace_eq, he2, post_stages_context, hp2, hb3]

/-- C3 witness: the amended frame property evaluated with every setting
supplied. -/
theorem override_frame_amended_witness :
    ((toRawKubeConfigLoader canonicalKubeEnv dFrameAll (some "myns")).getD
        ⟨{}, {}⟩).overrides.authInfo.username = "user"
      ∧ ((toRawKubeConfigLoader canonicalKubeEnv dFrameAll (some "myns")).getD
        ⟨{}, {}⟩).overrides.context.namespc = "myns"
      ∧ ((toRawKubeConfigLoader canonicalKubeEnv dFrameAll (some "myns")).getD
        ⟨{}, {}⟩).overrides.currentContext = "ctx" := by
  have h : toRawKubeConfigLoader canonicalKubeEnv dFrameAll (some "myns")
      = some ((toRawKubeConfigLoader canonicalKubeEnv dFrameAll (some "myns")).getD
        ⟨{}, {}⟩) := rfl
  have hall := override_frame_amended canonicalKubeEnv dFrameAll (some "myns") _ rfl h
  exact ⟨hall.2.2.2.2.1, hall.2.2.2.2.2.2.2.2.1,
    (hall.2.2.2.2.2.2.2.2.2.2 "~/.kube/config" rfl rfl (by decide)).1⟩

theorem splitOnSubstr_https (v : List Char) :
    splitOnSubstr [':', '/', '/'] ('h' :: 't' :: 't' :: 'p' :: 's' :: ':' :: '/' :: '/' :: v)
      = some (['h', 't', 't', 'p', 's'], v) := by
  simp [splitOnSubstr, List.isPrefixOf]

theorem data_ne_nil {v : String} (h : v ≠ "") : v.data ≠ [] :=
  fun hd => h (congrArg String.mk hd)

theorem parse_https_prefixed (v : String) (hv : v ≠ "")
    (h2 : splitOnSubstr ['/'] v.data = none) :
    parseSchemeURL ("https://" ++ v) = some ⟨"https", v, ""⟩ := by
  unfold parseSchemeURL
  have hdata : ("https://" ++ v).data
      = 'h' :: 't' :: 't' :: 'p' :: 's' :: ':' :: '/' :: '/' :: v.data := by
    rw [String.data_append]
    rfl
  rw [hdata, splitOnSubstr_https]
  simp [h2, data_ne_nil hv]

theorem defaultServerURL_noscheme (v : String) (hv : v ≠ "")
    (h1 : parseSchemeURL v = none) (h2 : splitOnSubstr ['/'] v.data = none) :
    defaultServerURL v true = .ok ⟨"https", v, ""⟩ := by
  unfold defaultServerURL
  rw [if_neg hv, h1]
  dsimp only
  have hshow : ((if (true = true) then "https" else "http") ++ "://") ++ v
      = "https://" ++ v := rfl
  rw [hshow, parse_https_prefixed v hv h2]
  simp

/-- C1: when an explicit host is supplied (with supplied TLS-related
settings nonempty, matching `GetOk` semantics), the server override is
exactly the `rest.DefaultServerURL` result for that host with the
secure-defaults flag set exactly when CA data, client certificate data,
or the insecure flag is also supplied; in particular, a scheme-less,
path-less host together with a client certificate resolves to the
https-prefixed URL. -/
theorem host_override_secure_defaults (env : KubeEnv) (d : ConfigData) (ns : Option String)
    (v : String) (cfg : ClientConfig)
    (hmk : env.mkDeferredConfig = newNonInteractiveDeferredLoadingClientConfig)
    (hhost : d.host = some v)
    (hca : d.clusterCACertificate ≠ some "")
    (hcert : d.clientCertificate ≠ some "")
    (hins : d.insecure ≠ some false)
    (h : toRawKubeConfigLoader env d ns = some cfg) :
    (∃ u, defaultServerURL v
        (d.clusterCACertificate.isSome || d.clientCertificate.isSome || d.insecure.isSome)
          = .ok u
      ∧ cfg.overrides.clusterInfo.server = u.render)
    ∧ (d.clientCertificate.isSome = true → splitOnSubstr ['/'] v.data = none →
        parseSchemeURL v = none →
        cfg.overrides.clusterInfo.server = "https://" ++ v) := by
  obtain ⟨l, ov0, ov', hf, hs, hm⟩ := toRawKubeConfigLoader_parts env d ns cfg h
  rw [hmk] at hm
  have hcfg : cfg = ⟨l, ov'⟩ := (Option.some.inj hm).symm
  subst hcfg
  obtain ⟨ov1, ov2, hh, he, hn⟩ := staticOverrides_parts d ns ov0 ov' hs
  subst hn
  obtain ⟨hcl0, hai0, _⟩ := fileOverrides_static env d l ov0 hf
  rw [pre_stages_eq] at hh
  obtain ⟨u, hu, hserv⟩ := overrideHost_some d _ ov1 v hhost hh
  dsimp only at hu
  rw [hcl0, hai0] at hu
  dsimp only at hu
  have hflag : (decide (d.clusterCACertificate.getD "" ≠ ""
        ∨ d.clientCertificate.getD "" ≠ "" ∨ d.insecure.getD false = true))
      = (d.clusterCACertificate.isSome || d.clientCertificate.isSome
          || d.insecure.isSome) := by
    rcases hA : d.clusterCACertificate with _ | a <;>
      rcases hB : d.clientCertificate with _ | b <;>
        rcases hC : d.insecure with _ | c <;>
          simp_all
  rw [hflag] at hu
  obtain ⟨he1, he2, he3, he4, he5, he6, he7, he8, he9⟩ := overrideExec_preserves d _ ov2 he
  constructor
  · refine ⟨u, hu, ?_⟩
    simp only [overrideNamespace_eq, he3, post_stages_clusterInfo]
    exact hserv
  · intro hc hsl hps
    have hft : (d.clusterCACertificate.isSome || d.clientCertificate.isSome
        || d.insecure.isSome) = true := by
      rw [hc]
      simp
    rw [hft] at hu
    have hv : v ≠ "" := by
      intro hveq
      subst hveq
      unfold defaultServerURL at hu
      simp at hu
    rw [defaultServerURL_noscheme v hv hps hsl] at hu
    have hue : (⟨"https", v, ""⟩ : URL) = u := Except.ok.inj hu
    simp only [overrideNamespace_eq, he3, post_stages_clusterInfo]
    rw [hserv, ← hue]
    show ("https" ++ "://" ++ v) ++ "" = "https://" ++ v
    have hemp : ∀ s : String, s ++ "" = s := fun s => by
      cases s with
      | mk l => exact congrArg String.mk (List.append_nil l)
    rw [hemp]
    rfl

/-- C1 witness: an explicit scheme-less host with a client certificate
resolves to the https-prefixed server URL. -/
theorem host_override_secure_defaults_witness :
    ((toRawKubeConfigLoader canonicalKubeEnv dHostCert none).getD
        ⟨{}, {}⟩).overrides.clusterInfo.server = "https://" ++ "1.2.3.4:443" := by
  have h : toRawKubeConfigLoader canonicalKubeEnv dHostCert none
      = some ((toRawKubeConfigLoader canonicalKubeEnv dHostCert none).getD ⟨{}, {}⟩) := rfl
  exact (host_override_secure_defaults canonicalKubeEnv dHostCert none "1.2.3.4:443" _
    rfl rfl (by decide) (by decide) (by decide) h).2 rfl (by decide) (by decide)

/-- C8: a malformed exec spec, or a failing deferred-config
construction, makes `toRawKubeConfigLoader` return a null loader. -/
theorem exec_malformed_null_loader (env : KubeEnv) (d : ConfigData) (ns : Option String) :
    (d.exec = some none → toRawKubeConfigLoader env d ns = none)
      ∧ ((∀ l ov, env.mkDeferredConfig l ov = none) →
          toRawKubeConfigLoader env d ns = none) := by
  constructor
  · intro hex
    unfold toRawKubeConfigLoader
    cases hf : fileOverrides env d with
    | none => simp [hf]
    | some pair =>
      obtain ⟨l, ov⟩ := pair
      have hso : staticOverrides d ns ov = none := by
        unfold staticOverrides
        dsimp only
        cases hh : overrideHost d
            (overrideClientCert d (overrideClusterCA d (overrideInsecure d ov))) with
        | none => simp [hh]
        | some ov1 => simp [hh, overrideExec_malformed d _ hex]
      simp [hf, hso]
  · intro hmk
    unfold toRawKubeConfigLoader
    cases hf : fileOverrides env d with
    | none => simp [hf]
    | some pair =>
      obtain ⟨l, ov⟩ := pair
      cases hso : staticOverrides d ns ov with
      | none => simp [hf, hso]
      | some ov' => simp [hf, hso, hmk]

/-- C8 witness: a malformed exec spec and a failing constructor, each on
a concrete input. -/
theorem exec_malformed_null_loader_witness :
    toRawKubeConfigLoader canonicalKubeEnv { exec := some none } none = none
      ∧ toRawKubeConfigLoader kubeEnvNoCfg {} none = none :=
  ⟨(exec_malformed_null_loader canonicalKubeEnv { exec := some none } none).1 rfl,
   (exec_malformed_null_loader kubeEnvNoCfg {} none).2 (fun _ _ => rfl)⟩

/-- C5: a successful (non-null) first resolution is stored, and every
subsequent call (any number of iterations later) returns the identical
stored loader without changing the state. -/
theorem loader_memoizes_first_success (env : KubeEnv) (k : KubeConfig)
    (c : ClientConfig) (n : Nat)
    (h : (KubeConfigToRawKubeConfigLoader env k).1 = some c) :
    (KubeConfigToRawKubeConfigLoader env k).2.clientConfig = some c
      ∧ (fun s => (KubeConfigToRawKubeConfigLoader env s).2)^[n]
          (KubeConfigToRawKubeConfigLoader env k).2
          = (KubeConfigToRawKubeConfigLoader env k).2
      ∧ (KubeConfigToRawKubeConfigLoader env
          ((fun s => (KubeConfigToRawKubeConfigLoader env s).2)^[n]
            (KubeConfigToRawKubeConfigLoader env k).2)).1 = some c := by
  have hres : ∀ s : KubeConfig,
      (KubeConfigToRawKubeConfigLoader env s).2.clientConfig
        = (KubeConfigToRawKubeConfigLoader env s).1 := by
    intro s
    rcases s with ⟨cd, nsp, cc⟩
    cases cc <;> rfl
  have hfix : ∀ s : KubeConfig, s.clientConfig = some c →
      KubeConfigToRawKubeConfigLoader env s = (some c, s) := by
    intro s hsc
    rcases s with ⟨cd, nsp, cc⟩
    cases cc with
    | none => cases hsc
    | some c0 =>
      obtain rfl : c0 = c := Option.some.inj hsc
      rfl
  have h2 : (KubeConfigToRawKubeConfigLoader env k).2.clientConfig = some c := by
    rw [hres k, h]
  have hiter : ∀ m, (fun s => (KubeConfigToRawKubeConfigLoader env s).2)^[m]
      (KubeConfigToRawKubeConfigLoader env k).2
        = (KubeConfigToRawKubeConfigLoader env k).2 := by
    intro m
    induction m with
    | zero => rfl
    | succ mm ih =>
      rw [Function.iterate_succ_apply', ih]
      show (KubeConfigToRawKubeConfigLoader env (KubeConfigToRawKubeConfigLoader env k).2).2
          = (KubeConfigToRawKubeConfigLoader env k).2
      rw [hfix _ h2]
  refine ⟨h2, hiter n, ?_⟩
  rw [hiter n, hfix _ h2]

/-- C5 witness: after the first successful resolution on a fresh
`KubeConfig`, two further calls still return the same loader. -/
theorem loader_memoizes_first_success_witness :
    (KubeConfigToRawKubeConfigLoader canonicalKubeEnv
        ((fun s => (KubeConfigToRawKubeConfigLoader canonicalKubeEnv s).2)^[2]
          (KubeConfigToRawKubeConfigLoader canonicalKubeEnv {}).2)).1
      = some ⟨{}, { context := { namespc := "default" } }⟩ :=
  (loader_memoizes_first_success canonicalKubeEnv {}
    ⟨{}, { context := { namespc := "default" } }⟩ 2 rfl).2.2

theorem concInv_init (env : KubeEnv) (d : ConfigData) (ns : Option String) (n : Nat) :
    concInv env d ns (initConcState n) := by
  refine ⟨?_, Or.inl rfl, fun _ => Or.inl ⟨rfl, rfl, ?_⟩⟩
  · intro r hr
    have := List.eq_of_mem_replicate hr
    exact absurd this (by simp)
  · intro r hr
    have := List.eq_of_mem_replicate hr
    exact absurd this (by simp)

theorem concInv_step (env : KubeEnv) (d : ConfigData) (ns : Option String)
    (s : ConcState) (i : Nat) (hinv : concInv env d ns s) :
    concInv env d ns (concStep env d ns s i) := by
  obtain ⟨h1, h2, h3⟩ := hinv
  unfold concStep
  cases hci : s.callers.get? i with
  | none => exact ⟨h1, h2, h3⟩
  | some st =>
    cases st with
    | start =>
      dsimp only
      by_cases hl : s.lockHeld
      · rw [if_pos hl]
        exact ⟨h1, h2, h3⟩
      · rw [if_neg hl]
        refine ⟨?_, h2, ?_⟩
        · intro r hr
          rcases List.mem_or_eq_of_mem_set hr with hmem | heq
          · exact h1 r hmem
          · cases heq
        · intro hsome
          rcases h3 hsome with ⟨ha, hb, hc⟩ | hright
          · left
            refine ⟨ha, hb, ?_⟩
            intro r hr
            rcases List.mem_or_eq_of_mem_set hr with hmem | heq
            · exact hc r hmem
            · cases heq
          · right
            exact hright
    | locked =>
      dsimp only
      cases hcc : s.clientConfig with
      | none =>
        dsimp only
        refine ⟨?_, Or.inr rfl, ?_⟩
        · intro r hr
          rcases List.mem_or_eq_of_mem_set hr with hmem | heq
          · exact h1 r hmem
          · exact CallerState.finished.inj heq
        · intro hsome
          right
          refine ⟨rfl, ?_⟩
          rcases h3 hsome with ⟨_, hb, _⟩ | ⟨hx, _⟩
          · rw [hb]
          · have hcontra : toRawKubeConfigLoader env d ns = none := by
              rw [← hx, hcc]
            rw [hcontra] at hsome
            simp at hsome
      | some c =>
        dsimp only
        have htr : toRawKubeConfigLoader env d ns = some c := by
          rcases h2 with hn | ht
          · rw [hcc] at hn
            cases hn
          · rw [← ht, hcc]
        refine ⟨?_, Or.inr (by rw [htr]), ?_⟩
        · intro r hr
          rcases List.mem_or_eq_of_mem_set hr with hmem | heq
          · exact h1 r hmem
          · have hrc : r = some c := CallerState.finished.inj heq
            rw [hrc, htr]
        · intro hsome
          right
          rcases h3 hsome with ⟨ha, _, _⟩ | ⟨_, hb⟩
          · rw [hcc] at ha
            cases ha
          · exact ⟨by rw [htr], hb⟩
    | finished r => exact ⟨h1, h2, h3⟩

theorem concInv_run (env : KubeEnv) (d : ConfigData) (ns : Option String)
    (sched : List Nat) (s : ConcState) (hinv : concInv env d ns s) :
    concInv env d ns (concRun env d ns sched s) := by
  induction sched generalizing s with
  | nil => exact hinv
  | cons i rest ih => exact ih _ (concInv_step env d ns s i hinv)

/-- C9: in every interleaving of any number of concurrent callers
starting before first resolution, all callers that finish observe the
same resolution result, and when resolution succeeds the cache holds it
and exactly one loader construction has happened. -/
theorem concurrent_loader_single_construction (env : KubeEnv) (d : ConfigData)
    (ns : Option String) (n : Nat) (sched : List Nat) :
    (∀ r, CallerState.finished r ∈ (concRun env d ns sched (initConcState n)).callers →
        r = toRawKubeConfigLoader env d ns)
      ∧ (∀ c, toRawKubeConfigLoader env d ns = some c →
          (∃ r, CallerState.finished r ∈ (concRun env d ns sched (initConcState n)).callers) →
          (concRun env d ns sched (initConcState n)).clientConfig = some c
            ∧ (concRun env d ns sched (initConcState n)).constructions = 1) := by
  obtain ⟨h1, h2, h3⟩ := concInv_run env d ns sched (initConcState n) (concInv_init env d ns n)
  refine ⟨h1, ?_⟩
  rintro c hc ⟨r, hr⟩
  have hsome : (toRawKubeConfigLoader env d ns).isSome = true := by
    rw [hc]
    rfl
  rcases h3 hsome with ⟨_, _, hnone⟩ | ⟨ha, hb⟩
  · exact absurd hr (hnone r)
  · exact ⟨by rw [ha, hc], hb⟩

/-- C9 witness: two callers scheduled lock-step on a fresh state finish
with the same loader and a single construction. -/
theorem concurrent_loader_single_construction_witness :
    (concRun canonicalKubeEnv {} none [0, 0, 1, 1] (initConcState 2)).clientConfig
        = some ⟨{}, { context := { namespc := "default" } }⟩
      ∧ (concRun canonicalKubeEnv {} none [0, 0, 1, 1] (initConcState 2)).constructions = 1 :=
  (concurrent_loader_single_construction canonicalKubeEnv {} none 2 [0, 0, 1, 1]).2
    ⟨{}, { context := { namespc := "default" } }⟩ rfl
    ⟨some ⟨{}, { context := { namespc := "default" } }⟩, by decide⟩

theorem buildK8sClient_settings (ext : ProviderExt) (d : ProviderData) (m m' : Meta)
    (h : buildK8sClient ext d m = .ok m') : m'.settings = m.settings := by
  unfold buildK8sClient at h
  dsimp only at h
  repeat' split at h
  all_goals (try cases h)
  all_goals rfl

theorem buildMeta_eq (ext : ProviderExt) (d : ProviderData) :
    buildMeta ext d =
      match buildK8sClient ext d { settings := buildSettings d } with
      | .error e => .error e
      | .ok m1 =>
        match buildTunnel ext m1 with
        | .error e => .error e
        | .ok m2 =>
          match buildHelmClient ext.tlsEnv d m2 with
          | .error e => .error e
          | .ok m3 => .ok m3 := by
  unfold buildMeta
  rfl

/-- C4: building the tunnel is a no-op when a Tiller host is configured;
otherwise it rewrites the effective host to `localhost:<local-port>` of
the opened port-forward, and a tunnel failure makes the whole provider
configuration (`buildMeta`) fail. -/
theorem tunnel_noop_rewrite_and_fatal (ext : ProviderExt) (d : ProviderData)
    (m m1 : Meta) (p : Nat) (e : String) :
    (m.settings.tillerHost ≠ "" → buildTunnel ext m = .ok m)
      ∧ (m.settings.tillerHost = "" →
          ext.portforwardNew m.settings.tillerNamespace m.k8sClient m.k8sConfig = .ok p →
          buildTunnel ext m
            = .ok { m with settings.tillerHost := "localhost:" ++ toString p })
      ∧ (m.settings.tillerHost = "" →
          ext.portforwardNew m.settings.tillerNamespace m.k8sClient m.k8sConfig = .error e →
          buildTunnel ext m = .error ("error creating tunnel: " ++ quoteStr e))
      ∧ (d.host = "" →
          buildK8sClient ext d { settings := buildSettings d } = .ok m1 →
          ext.portforwardNew m1.settings.tillerNamespace m1.k8sClient m1.k8sConfig
            = .error e →
          buildMeta ext d = .error ("error creating tunnel: " ++ quoteStr e)) := by
  have hneg : m.settings.tillerHost = "" → ¬(m.settings.tillerHost ≠ "") :=
    fun hz hcon => hcon hz
  refine ⟨?_, ?_, ?_, ?_⟩
  · intro hne
    unfold buildTunnel
    rw [if_pos hne]
  · intro hz hpf
    unfold buildTunnel
    rw [if_neg (hneg hz), hpf]
  · intro hz hpf
    unfold buildTunnel
    rw [if_neg (hneg hz), hpf]
  · intro hdh hk8s hpf
    have hth : m1.settings.tillerHost = "" := by
      rw [buildK8sClient_settings ext d _ m1 hk8s]
      exact hdh
    have htun : buildTunnel ext m1 = .error ("error creating tunnel: " ++ quoteStr e) := by
      unfold buildTunnel
      rw [if_neg (fun hcon => hcon hth), hpf]
    rw [buildMeta_eq, hk8s]
    dsimp only
    rw [htun]

/-- C4 witness: the three behaviors at concrete inputs — explicit host
is a no-op, an opened tunnel rewrites the host, and a failed tunnel
fails `buildMeta`. -/
theorem tunnel_noop_rewrite_and_fatal_witness :
    buildTunnel extNoKubeconfig { settings := { tillerHost := "tiller:44134" } }
        = .ok { settings := { tillerHost := "tiller:44134" } }
      ∧ buildTunnel extNoKubeconfig { settings := { tillerNamespace := "kube-system" } }
        = .ok { settings := { tillerHost := "localhost:" ++ toString 44134,
                              tillerNamespace := "kube-system" } }
      ∧ buildMeta extTunnelFail {}
        = .error ("error creating tunnel: " ++ quoteStr "pod not found") := by
  refine ⟨?_, ?_, ?_⟩
  · exact (tunnel_noop_rewrite_and_fatal extNoKubeconfig {}
      { settings := { tillerHost := "tiller:44134" } } {} 0 "").1 (by decide)
  · exact (tunnel_noop_rewrite_and_fatal extNoKubeconfig {}
      { settings := { tillerNamespace := "kube-system" } } {} 44134 "").2.1 rfl rfl
  · exact (tunnel_noop_rewrite_and_fatal extTunnelFail {} {}
      ((buildK8sClient extTunnelFail {} { settings := buildSettings {} }).toOption.getD {})
      0 "pod not found").2.2.2 rfl rfl rfl

/-- C2 (code bug): with a `kubernetes` block present and kubeconfig
resolution failing, `buildK8sClient` returns the kubeconfig error
without applying the static overrides (first conjunct), although the
statically overlaid configuration would construct a client (second
conjunct); and with no `kubernetes` block it swallows the kubeconfig
failure and builds a client from an empty configuration (third
conjunct).  The `if hasStatic` guard is inverted relative to the
specified behavior. -/
theorem k8s_client_static_override_failing_input :
    buildK8sClient extNoKubeconfig dStaticK8s {} = .error "no kubeconfig"
      ∧ extNoKubeconfig.newForConfig
          { host := "https://10.0.0.1", userAgent := "HashiCorp/1.0 Terraform/0.12.0" }
        = .ok ⟨{ host := "https://10.0.0.1", userAgent := "HashiCorp/1.0 Terraform/0.12.0" }⟩
      ∧ buildK8sClient extNoKubeconfig { kubernetes := none } {}
        = .ok { k8sConfig := some { userAgent := "HashiCorp/1.0 Terraform/0.12.0" },
                k8sClient := some ⟨{ userAgent := "HashiCorp/1.0 Terraform/0.12.0" }⟩ } :=
  ⟨rfl, rfl, rfl⟩

/-- C6 (counterexample): an unparseable CA bundle (the parse function
rejects it) does not make the Helm client builder fail when the
insecure flag is set — it succeeds, against the claim's unconditional
"fails". -/
theorem tls_ca_unparsed_counterexample :
    tlsEnvBadCA.appendCertsFromPEM "content:caf" = false
      ∧ getContent tlsEnvBadCA dTLSBadCA.caCertificate "$HELM_HOME/ca.pem"
          = .ok "content:caf"
      ∧ buildHelmClient tlsEnvBadCA dTLSBadCA {}
        = .ok { helmClient := some { host := "",
                                     tls := some { insecureSkipVerify := true,
                                                   certificates := [⟨"content:cf", "content:kf"⟩],
                                                   rootCAs := none } } } :=
  ⟨rfl, rfl, rfl⟩

/-- C6 (amended): when the key/cert material is not entirely empty, a
malformed key pair fails the Helm client builder; when additionally the
insecure flag is unset and a nonempty CA bundle does not parse, the
builder fails; and a TLS failure reached by provider configuration
fails `buildMeta`. -/
theorem tls_malformed_material_fails_amended (env : TLSEnv) (ext : ProviderExt)
    (d : ProviderData) (m m1 m2 : Meta) (key cert ca e e2 : String) (c : Certificate) :
    (getContent env d.clientKey "$HELM_HOME/key.pem" = .ok key →
      getContent env d.clientCertificate "$HELM_HOME/cert.pem" = .ok cert →
      ¬(key = "" ∧ cert = "") →
      env.x509KeyPair cert key = .error e →
      buildHelmClient env d m = .error ("could not read x509 key pair: " ++ e))
    ∧ (getContent env d.clientKey "$HELM_HOME/key.pem" = .ok key →
      getContent env d.clientCertificate "$HELM_HOME/cert.pem" = .ok cert →
      ¬(key = "" ∧ cert = "") →
      env.x509KeyPair cert key = .ok c →
      d.insecure = false →
      getContent env d.caCertificate "$HELM_HOME/ca.pem" = .ok ca →
      ca ≠ "" →
      env.appendCertsFromPEM ca = false →
      buildHelmClient env d m = .error "failed to parse ca_certificate")
    ∧ (buildK8sClient ext d { settings := buildSettings d } = .ok m1 →
      buildTunnel ext m1 = .ok m2 →
      getTLSConfig ext.tlsEnv d = .error e2 →
      buildMeta ext d = .error e2) := by
  refine ⟨?_, ?_, ?_⟩
  · intro hk hc hne hx
    have htls : getTLSConfig env d = .error ("could not read x509 key pair: " ++ e) := by
      unfold getTLSConfig
      rw [hk, hc]
      dsimp only
      rw [if_neg hne, hx]
    unfold buildHelmClient
    rw [htls]
  · intro hk hc hne hx hins hca hcane happ
    have htls : getTLSConfig env d = .error "failed to parse ca_certificate" := by
      unfold getTLSConfig
      rw [hk, hc]
      dsimp only
      rw [if_neg hne, hx]
      dsimp only
      rw [hca]
      dsimp only
      rw [hins]
      rw [if_pos ⟨rfl, hcane⟩, happ]
      rfl
    unfold buildHelmClient
    rw [htls]
  · intro hk8s htun htls
    have hh : buildHelmClient ext.tlsEnv d m2 = .error e2 := by
      unfold buildHelmClient
      rw [htls]
    rw [buildMeta_eq, hk8s]
    dsimp only
    rw [htun]
    dsimp only
    rw [hh]

/-- C6 witness: the three failure modes at concrete inputs. -/
theorem tls_malformed_material_fails_amended_witness :
    buildHelmClient tlsEnvBadPair dTLSBadCASecure {}
        = .error ("could not read x509 key pair: " ++ "bad pair")
      ∧ buildHelmClient tlsEnvBadCA dTLSBadCASecure {}
          = .error "failed to parse ca_certificate"
      ∧ buildMeta extBadCA dTLSBadCAProv = .error "failed to parse ca_certificate" := by
  refine ⟨?_, ?_, ?_⟩
  · exact (tls_malformed_material_fails_amended tlsEnvBadPair extBadCA dTLSBadCASecure
      {} {} {} "content:kf" "content:cf" "" "bad pair" "" ⟨"", ""⟩).1
      rfl rfl (by decide) rfl
  · exact (tls_malformed_material_fails_amended tlsEnvBadCA extBadCA dTLSBadCASecure
      {} {} {} "content:kf" "content:cf" "content:caf" "" ""
      ⟨"content:cf", "content:kf"⟩).2.1 rfl rfl (by decide) rfl rfl rfl (by decide) rfl
  · exact (tls_malformed_material_fails_amended tlsEnvBadCA extBadCA dTLSBadCAProv
      {}
      ((buildK8sClient extBadCA dTLSBadCAProv
        { settings := buildSettings dTLSBadCAProv }).toOption.getD {})
      ((buildK8sClient extBadCA dTLSBadCAProv
        { settings := buildSettings dTLSBadCAProv }).toOption.getD {})
      "" "" "" "" "failed to parse ca_certificate" ⟨"", ""⟩).2.2 rfl rfl rfl

/-- C7: with a valid client certificate and key only (CA material empty
or the default sentinel) and the insecure flag unset, the TLS
configuration has exactly the parsed key pair and no root CA pool. -/
theorem tls_cert_only_no_root_ca (env : TLSEnv) (d : ProviderData)
    (key cert s : String) (c : Certificate)
    (hk : getContent env d.clientKey "$HELM_HOME/key.pem" = .ok key)
    (hc : getContent env d.clientCertificate "$HELM_HOME/cert.pem" = .ok cert)
    (hkne : key ≠ "") (_hcne : cert ≠ "")
    (hx : env.x509KeyPair cert key = .ok c)
    (hins : d.insecure = false)
    (hread : env.read d.caCertificate = .ok s)
    (hsent : s = "" ∨ s = "$HELM_HOME/ca.pem") :
    getTLSConfig env d
      = .ok (some { insecureSkipVerify := false, certificates := [c], rootCAs := none }) := by
  have hca : getContent env d.caCertificate "$HELM_HOME/ca.pem" = .ok "" := by
    unfold getContent
    rw [hread]
    rcases hsent with hs | hs <;> subst hs <;> rfl
  unfold getTLSConfig
  rw [hk, hc]
  dsimp only
  rw [if_neg (fun hcon => hkne hcon.1), hx]
  dsimp only
  rw [hca]
  dsimp only
  rw [hins]
  rw [if_neg (by simp)]

/-- C7 witness: key and certificate configured, CA left at its default
sentinel. -/
theorem tls_cert_only_no_root_ca_witness :
    getTLSConfig tlsEnvCertOnly dCertOnly
      = .ok (some { insecureSkipVerify := false,
                    certificates := [⟨"CERTPEM", "KEYPEM"⟩], rootCAs := none }) :=
  tls_cert_only_no_root_ca tlsEnvCertOnly dCertOnly "KEYPEM" "CERTPEM" "$HELM_HOME/ca.pem"
    ⟨"CERTPEM", "KEYPEM"⟩ rfl rfl (by decide) (by decide) rfl rfl rfl (Or.inr rfl)

theorem getTLSConfig_insecure_eq (env : TLSEnv) (d : ProviderData)
    (hins : d.insecure = true) :
    getTLSConfig env d =
      match getContent env d.clientKey "$HELM_HOME/key.pem" with
      | .error e => .error e
      | .ok key =>
        match getContent env d.clientCertificate "$HELM_HOME/cert.pem" with
        | .error e => .error e
        | .ok cert =>
          if key = "" ∧ cert = "" then .ok none
          else
            match env.x509KeyPair cert key with
            | .error e => .error ("could not read x509 key pair: " ++ e)
            | .ok c =>
              match getContent env d.caCertificate "$HELM_HOME/ca.pem" with
              | .error e => .error e
              | .ok _ => .ok (some { insecureSkipVerify := true,
                                     certificates := [c], rootCAs := none }) := by
  unfold getTLSConfig
  cases h1 : getContent env d.clientKey "$HELM_HOME/key.pem" with
  | error e => rfl
  | ok key =>
    dsimp only
    cases h2 : getContent env d.clientCertificate "$HELM_HOME/cert.pem" with
    | error e => rfl
    | ok cert =>
      dsimp only
      by_cases hb : key = "" ∧ cert = ""
      · rw [if_pos hb, if_pos hb]
      · rw [if_neg hb, if_neg hb]
        cases h3 : env.x509KeyPair cert key with
        | error e => rfl
        | ok c =>
          dsimp only
          cases h4 : getContent env d.caCertificate "$HELM_HOME/ca.pem" with
          | error e => rfl
          | ok ca =>
            dsimp only
            rw [hins]
            rw [if_neg (by simp)]

/-- C10: with the insecure flag set, `getTLSConfig` never consults the
CA parse function (its result does not depend on it) and never attaches
a root CA pool, so an unparseable CA bundle can cause an error only
when the insecure flag is unset. -/
theorem insecure_skips_ca_parse (env : TLSEnv) (d : ProviderData)
    (hins : d.insecure = true) :
    (∀ f g, getTLSConfig { env with appendCertsFromPEM := f } d
        = getTLSConfig { env with appendCertsFromPEM := g } d)
      ∧ (∀ t, getTLSConfig env d = .ok (some t) → t.rootCAs = none) := by
  constructor
  · intro f g
    rw [getTLSConfig_insecure_eq { env with appendCertsFromPEM := f } d hins,
      getTLSConfig_insecure_eq { env with appendCertsFromPEM := g } d hins]
    rfl
  · intro t h
    rw [getTLSConfig_insecure_eq env d hins] at h
    repeat' split at h
    all_goals (try simp_all)
    all_goals (rw [← h])

/-- C10 witness: with the insecure flag set, swapping an always-failing
CA parser for an always-succeeding one does not change the result, and
the result carries no root CA pool. -/
theorem insecure_skips_ca_parse_witness :
    getTLSConfig { tlsEnvOk with appendCertsFromPEM := fun _ => false } dTLSBadCA
        = getTLSConfig { tlsEnvOk with appendCertsFromPEM := fun _ => true } dTLSBadCA
      ∧ TLSConfig.rootCAs { insecureSkipVerify := true,
                            certificates := [⟨"content:cf", "content:kf"⟩],
                            rootCAs := none } = none := by
  refine ⟨(insecure_skips_ca_parse tlsEnvOk dTLSBadCA rfl).1 (fun _ => false) (fun _ => true),
    (insecure_skips_ca_parse tlsEnvBadCA dTLSBadCA rfl).2
      { insecureSkipVerify := true, certificates := [⟨"content:cf", "content:kf"⟩],
        rootCAs := none } rfl⟩
